import Mathlib

set_option maxRecDepth 8000

/-!
Shallow embedding of the MovieReviewApp front end admin components.

The repository is a React front end.  Two components carry the behaviour the
claims are about:

* `AdminMovies` (source file `part_002`): lists movies (`GET /api/movies`),
  adds a movie (`POST /api/admin/movies`), deletes one movie
  (`DELETE /api/admin/movies/id`) and deletes all movies by issuing one
  delete per record inside `Promise.all`.
* `UsersChart` (source file `UserCharts.jsx`): loads `GET /users` with
  content-type checking.

The embedding models each async handler as a pure function from the component
state and an environment (the outcome of every `fetch` call the handler
performs) to the new component state together with the list of HTTP requests
the handler issued.  JavaScript `fetch` semantics are embedded faithfully:
a `fetch` promise rejects only on a network-level error; an HTTP response
with any status (including 4xx/5xx) fulfills the promise, and `res.ok` is
true exactly for statuses 200..299.  `res.json()` may itself reject (body is
not parseable), which is modelled with `Except`.
-/

/-- JavaScript values as they appear in this code base: parsed JSON bodies,
request payload fields and property accesses.  `num raw` records the source
text of the number (for payloads, the string the JS `Number` conversion was
applied to); `undef` is JavaScript `undefined`, produced by a missing
property. -/
inductive Json where
  | undef : Json
  | null : Json
  | bool : Bool → Json
  | num : String → Json
  | str : String → Json
  | arr : List Json → Json
  | obj : List (String × Json) → Json


/-- Is this JSON value an array?  Embeds the JavaScript test
`Array.isArray(data)`. -/
def Json.isArr : Json → Bool
  | .arr _ => true
  | _ => false

/-- JavaScript property access `v[key]`: objects yield their field (or
`undefined` when absent); property access on other values yields `undefined`.
(Access on `null`/`undefined` would throw a TypeError in JS; that corner is
never exercised by the handlers modelled here.) -/
def jsGet (v : Json) (key : String) : Json :=
  match v with
  | .obj fields => (fields.lookup key).getD .undef
  | _ => .undef

mutual

/-- JavaScript template-literal stringification of a value, as used by
string interpolation in the source.  For a number the recorded source text
stands in for the formatted double; arrays join their elements with commas;
plain objects display as the usual object placeholder. -/
def jsDisplay : Json → String
  | .undef => "undefined"
  | .null => "null"
  | .bool b => cond b "true" "false"
  | .num raw => raw
  | .str s => s
  | .arr xs => jsDisplayList xs
  | .obj _ => "[object Object]"

/-- Comma-joined display of the elements of a JavaScript array. -/
def jsDisplayList : List Json → String
  | [] => ""
  | [x] => jsDisplay x
  | x :: y :: xs => jsDisplay x ++ "," ++ jsDisplayList (y :: xs)

end

/-- ASCII lower-casing of one character, as performed by the JavaScript
`toLowerCase` on the header values this code reads. -/
def lowerChar (c : Char) : Char :=
  if 'A' ≤ c && c ≤ 'Z' then Char.ofNat (c.toNat + 32) else c

/-- JavaScript `toLowerCase`, restricted to the ASCII range the handlers
compare against. -/
def jsToLower (s : String) : String :=
  ⟨s.data.map lowerChar⟩

/-- JavaScript whitespace characters relevant to `String.prototype.trim`
(space, tab, line feed, carriage return; the exotic Unicode space characters
are not exercised by the claims). -/
def jsWhitespace (c : Char) : Bool :=
  c == ' ' || c == '\t' || c == '\n' || c == '\r'

/-- JavaScript `String.prototype.trim`: strip leading and trailing
whitespace. -/
def jsTrim (s : String) : String :=
  ⟨((s.data.dropWhile jsWhitespace).reverse.dropWhile jsWhitespace).reverse⟩

/-- Helper for `strContains`: does `needle` occur as a contiguous block
inside `hay`? -/
def strContainsAux (needle : List Char) : List Char → Bool
  | [] => needle.isEmpty
  | c :: rest => needle.isPrefixOf (c :: rest) || strContainsAux needle rest

/-- JavaScript `hay.includes(needle)`: substring containment, executable. -/
def strContains (hay needle : String) : Bool :=
  strContainsAux needle.data hay.data

/-- Propositional form of substring containment: the message `hay` contains
a copy of `needle`. -/
def ContainsStr (hay needle : String) : Prop :=
  ∃ p q, hay = p ++ needle ++ q

/-- Fetch standard `Response.ok`: status in the range 200..299. -/
def okStatus (status : Nat) : Bool :=
  200 ≤ status && status < 300

/-- An HTTP response as the handlers observe it: the status, the
`content-type` header (`none` when the header is absent, in which case the
JS code substitutes `""` via `|| ""`), the body as text (`res.text()`), and
the result of `res.json()` — either a parse-error message or the parsed
value. -/
structure HttpResponse where
  status : Nat
  contentTypeHeader : Option String
  text : String
  json : Except String Json


/-- Outcome of one `fetch` call: the promise either rejects with a
network-level error message, or resolves with an HTTP response (whatever the
status). -/
inductive Outcome where
  | reject : String → Outcome
  | resolve : HttpResponse → Outcome


/-- Did this fetch outcome resolve (fulfil) rather than reject? -/
def Outcome.isResolve : Outcome → Bool
  | .reject _ => false
  | .resolve _ => true

/-- The HTTP requests the components can issue, identified by endpoint.
`deleteMovie` carries the JS value interpolated into the URL
`/api/admin/movies/...`. -/
inductive Request where
  | getMovies : Request
  | postMovie : List (String × Json) → Request
  | deleteMovie : Json → Request
  | getUsers : Request


/-- The `Promise.all` rejection: the message of the first rejecting outcome, or
`none` when every outcome fulfilled. -/
def firstReject : List Outcome → Option String
  | [] => none
  | .reject m :: _ => some m
  | .resolve _ :: rest => firstReject rest

namespace AdminMovies

/-- The controlled form state of the admin movies component: one string per
input field. -/
structure MForm where
  title : String
  director : String
  genre : String
  leadActor1 : String
  leadActor2 : String
  releaseDate : String
  salesMillions : String
  posterUrl : String


/-- The empty form template used to initialise and reset the form. -/
def emptyForm : MForm :=
  { title := "", director := "", genre := "", leadActor1 := "", leadActor2 := ""
    releaseDate := "", salesMillions := "", posterUrl := "" }

/-- Module-level flag controlling payload key casing; `false` in the source. -/
def SEND_SNAKE_CASE : Bool := false

/-- JavaScript `s || null` for a form-field string: the empty string is falsy
and becomes `null`; any other string passes through. -/
def orNull (s : String) : Json :=
  if s = "" then .null else .str s

/-- Source `toPayload`: convert the form state into the JSON request body, as an
association list of payload keys.  Empty optional strings become `null`;
`salesMillions` becomes `null` when empty, otherwise the JS `Number`
conversion of the entered string (recorded as `Json.num` of that string).
When `SEND_SNAKE_CASE` is set the same values are re-keyed in snake case. -/
def toPayload (form : MForm) : List (String × Json) :=
  let payload : List (String × Json) :=
    [ ("title", orNull form.title)
    , ("director", orNull form.director)
    , ("genre", orNull form.genre)
    , ("leadActor1", orNull form.leadActor1)
    , ("leadActor2", orNull form.leadActor2)
    , ("releaseDate", orNull form.releaseDate)
    , ("salesMillions", if form.salesMillions = "" then .null else .num form.salesMillions)
    , ("posterUrl", orNull form.posterUrl) ]
  if !SEND_SNAKE_CASE then payload
  else
    [ ("title", orNull form.title)
    , ("director", orNull form.director)
    , ("genre", orNull form.genre)
    , ("lead_actor_1", orNull form.leadActor1)
    , ("lead_actor_2", orNull form.leadActor2)
    , ("release_date", orNull form.releaseDate)
    , ("sales_millions", if form.salesMillions = "" then .null else .num form.salesMillions)
    , ("poster_url", orNull form.posterUrl) ]

/-- The component state: movies list (the last value `setMovies` received —
the parsed JSON body, an array in every healthy run), form draft, loading
flag and the user-visible error message. -/
structure AdminState where
  movies : Json
  form : MForm
  loading : Bool
  error : String


/-- Initial state from the `useState` initialisers: empty list, empty form,
not loading, no error. -/
def initialAdminState : AdminState :=
  { movies := .arr [], form := emptyForm, loading := false, error := "" }

/-- The `load` handler: `GET /api/movies`, on success store the parsed body,
on any failure (network rejection, non-success status, unparseable body)
store the error message and clear the movies list; always clear the loading
flag at the end. -/
def load (s : AdminState) (o : Outcome) : AdminState × List Request :=
  let s := { s with loading := true, error := "" }
  match o with
  | .reject m =>
      ({ s with error := m, movies := .arr [], loading := false }, [.getMovies])
  | .resolve res =>
      if !okStatus res.status then
        ({ s with error := "GET /api/movies failed: " ++ toString res.status,
                  movies := .arr [], loading := false }, [.getMovies])
      else
        match res.json with
        | .error m =>
            ({ s with error := m, movies := .arr [], loading := false }, [.getMovies])
        | .ok data =>
            ({ s with movies := data, loading := false }, [.getMovies])

/-- The `addMovie` submit handler.  Validation (`title` must be non-blank
after trimming) runs before any network call; then `POST /api/admin/movies`
with the serialized payload; on a non-success status the error message
carries the status and the response text; on success the form is reset to
the empty template and `load` re-runs with its own fetch outcome. -/
def addMovie (s : AdminState) (postOut : Outcome) (loadOut : Outcome) :
    AdminState × List Request :=
  let s := { s with loading := true, error := "" }
  if jsTrim s.form.title = "" then
    ({ s with error := "Title is required", loading := false }, [])
  else
    let payload := toPayload s.form
    match postOut with
    | .reject m =>
        ({ s with error := m, loading := false }, [.postMovie payload])
    | .resolve res =>
        if !okStatus res.status then
          ({ s with error := "POST failed " ++ toString res.status ++ ": " ++ res.text,
                    loading := false }, [.postMovie payload])
        else
          let s := { s with form := emptyForm }
          let r := load s loadOut
          ({ r.1 with loading := false }, .postMovie payload :: r.2)

/-- The `deleteOne` handler: bail out silently when the confirmation prompt
is declined; otherwise `DELETE /api/admin/movies/id`, report an error on a
rejection or non-success status, and re-run `load` on success. -/
def deleteOne (s : AdminState) (confirmed : Bool) (id : Json)
    (delOut : Outcome) (loadOut : Outcome) : AdminState × List Request :=
  if confirmed then
    let s := { s with loading := true, error := "" }
    match delOut with
    | .reject m =>
        ({ s with error := m, loading := false }, [.deleteMovie id])
    | .resolve res =>
        if !okStatus res.status then
          ({ s with error := "DELETE " ++ jsDisplay id ++ " failed: " ++ toString res.status,
                    loading := false }, [.deleteMovie id])
        else
          let r := load s loadOut
          ({ r.1 with loading := false }, .deleteMovie id :: r.2)
  else (s, [])

/-- The `deleteAll` handler.  After confirmation it re-fetches the current
list (`listOut`); a rejection, non-success status or unparseable body aborts
with an error before any delete is issued.  Otherwise one
`DELETE /api/admin/movies/id` fetch is initiated per record and awaited with
`Promise.all` (`dout i` is the outcome of the delete for the i-th record):
the aggregate rejects with the first rejecting delete, in which case no
reload happens; when every delete fulfils — with any HTTP status, since the
response objects are never inspected — `load` re-runs with outcome
`loadOut`.  When the fetched body is not an array, `list.map` throws a
TypeError, caught like the other failures. -/
def deleteAll (s : AdminState) (confirmed : Bool) (listOut : Outcome)
    (dout : Nat → Outcome) (loadOut : Outcome) : AdminState × List Request :=
  if confirmed then
    let s := { s with loading := true, error := "" }
    match listOut with
    | .reject m =>
        ({ s with error := m, loading := false }, [.getMovies])
    | .resolve res =>
        if !okStatus res.status then
          ({ s with error := "Failed to load movies before deleting", loading := false },
           [.getMovies])
        else
          match res.json with
          | .error m =>
              ({ s with error := m, loading := false }, [.getMovies])
          | .ok (.arr xs) =>
              let dreqs := xs.map (fun m => Request.deleteMovie (jsGet m "id"))
              match firstReject ((List.range xs.length).map dout) with
              | some m =>
                  ({ s with error := m, loading := false }, .getMovies :: dreqs)
              | none =>
                  let r := load s loadOut
                  ({ r.1 with loading := false }, .getMovies :: dreqs ++ r.2)
          | .ok _ =>
              ({ s with error := "list.map is not a function", loading := false },
               [.getMovies])
  else (s, [])

end AdminMovies

namespace UsersChart

/-- The users component state: `users` is `none` before the first load
completes (rendered as the loading placeholder) and `some` a list of user
records afterwards; plus the loading flag and error message. -/
structure UsersState where
  users : Option (List Json)
  loading : Bool
  error : String


/-- Initial state from the `useState` initialisers. -/
def initialUsersState : UsersState :=
  { users := none, loading := false, error := "" }

/-- Source expression `err.message || "Failed to load users"`: substitute the fallback text
when the caught message is the empty string. -/
def errOr (m : String) : String :=
  if m = "" then "Failed to load users" else m

/-- The users `load` handler: `GET /users`.  A non-success status raises an
error carrying the status and the first 200 characters of the body text; a
success with a content type that does not include `application/json` raises
an error carrying the detected content type and the truncated body; a JSON
success stores the parsed array (or the empty list when the parsed value is
not an array).  Every caught failure stores the message and sets the users
list to empty. -/
def load (s : UsersState) (o : Outcome) : UsersState × List Request :=
  let s := { s with loading := true, error := "", users := none }
  match o with
  | .reject m =>
      ({ s with error := errOr m, users := some [], loading := false }, [.getUsers])
  | .resolve res =>
      let ct := jsToLower (res.contentTypeHeader.getD "")
      if !okStatus res.status then
        ({ s with
            error := errOr ("GET /users failed: " ++ toString res.status ++ " — " ++ res.text.take 200),
            users := some [], loading := false }, [.getUsers])
      else if strContains ct "application/json" then
        match res.json with
        | .error m =>
            ({ s with error := errOr m, users := some [], loading := false }, [.getUsers])
        | .ok data =>
            ({ s with users := some (match data with | .arr xs => xs | _ => []),
                      loading := false }, [.getUsers])
      else
        ({ s with
            error := errOr ("Unexpected response content-type=" ++ ct ++ ". Body: " ++ res.text.take 200),
            users := some [], loading := false }, [.getUsers])

end UsersChart

/-! Concrete inputs used by witnesses and counterexamples. -/

/-- A minimal movie record with the given id. -/
def movieRec (n : String) : Json := .obj [("id", .num n)]

/-- A successful movies-list response carrying the given records. -/
def okMoviesResponse (xs : List Json) : HttpResponse :=
  { status := 200, contentTypeHeader := some "application/json",
    text := "irrelevant", json := .ok (.arr xs) }

/-- An HTTP 500 response with an HTML error page as body. -/
def resp500html : HttpResponse :=
  { status := 500, contentTypeHeader := some "text/html",
    text := "<html>boom</html>", json := .error "Unexpected token" }

/-- An HTTP 500 response to a delete request. -/
def resp500del : HttpResponse :=
  { status := 500, contentTypeHeader := none,
    text := "Internal Server Error", json := .error "not json" }

/-- An HTTP 204 response, a typical successful delete. -/
def resp204 : HttpResponse :=
  { status := 204, contentTypeHeader := none, text := "", json := .error "empty body" }

/-- A created (201) response to a post. -/
def resp201 : HttpResponse :=
  { status := 201, contentTypeHeader := some "application/json",
    text := "created", json := .ok (.obj []) }

/-- A successful users response whose parsed JSON body is an object, not an
array. -/
def okUsersNonArray : HttpResponse :=
  { status := 200, contentTypeHeader := some "application/json",
    text := "irrelevant", json := .ok (.obj [("page", .num "1")]) }

/-- An admin state that currently displays one movie. -/
def staleState : AdminMovies.AdminState :=
  { AdminMovies.initialAdminState with movies := .arr [movieRec "7"] }

/-- The draft of the spec scenario: title Dune, director Villeneuve, all
other fields untouched. -/
def duneDraft : AdminMovies.MForm :=
  { AdminMovies.emptyForm with title := "Dune", director := "Villeneuve" }

/-- An admin state holding the Dune draft. -/
def duneState : AdminMovies.AdminState :=
  { AdminMovies.initialAdminState with form := duneDraft }

/-- An admin state whose draft title is whitespace only. -/
def blankTitleState : AdminMovies.AdminState :=
  { AdminMovies.initialAdminState with
    form := { AdminMovies.emptyForm with title := "   " } }

/-! Helper lemmas about the embedding. -/

/-- The movies `load` handler always issues exactly the one list request. -/
theorem load_requests (s : AdminMovies.AdminState) (o : Outcome) :
    (AdminMovies.load s o).2 = [.getMovies] := by
  cases o with
  | reject m => rfl
  | resolve res =>
      simp only [AdminMovies.load]
      split
      · rfl
      · cases h : res.json <;> simp [h]

/-- The movies `load` handler never touches the form draft. -/
theorem load_form (s : AdminMovies.AdminState) (o : Outcome) :
    (AdminMovies.load s o).1.form = s.form := by
  cases o with
  | reject m => rfl
  | resolve res =>
      simp only [AdminMovies.load]
      split
      · rfl
      · cases h : res.json <;> simp [h]

/-- A string that starts with a nonempty literal is not empty. -/
theorem userFailMsg_ne (st tk : String) :
    ("GET /users failed: " ++ st ++ " — " ++ tk) ≠ "" := by
  intro he
  have h2 := congrArg String.length he
  rw [String.length_append, String.length_append, String.length_append] at h2
  have h19 : ("GET /users failed: " : String).length = 19 := rfl
  have h3 : (" — " : String).length = 3 := rfl
  have h0 : ("" : String).length = 0 := rfl
  rw [h19, h3, h0] at h2
  omega

/-- The content-type error message is not empty. -/
theorem ctFailMsg_ne (ct tk : String) :
    ("Unexpected response content-type=" ++ ct ++ ". Body: " ++ tk) ≠ "" := by
  intro he
  have h2 := congrArg String.length he
  rw [String.length_append, String.length_append, String.length_append] at h2
  have ha : ("Unexpected response content-type=" : String).length = 33 := rfl
  have hb : (". Body: " : String).length = 8 := rfl
  have h0 : ("" : String).length = 0 := rfl
  rw [ha, hb, h0] at h2
  omega

/-- The fallback `errOr` keeps any nonempty message. -/
theorem errOr_ne (m : String) (h : m ≠ "") : UsersChart.errOr m = m := by
  unfold UsersChart.errOr
  exact if_neg h

/-- The auxiliary scanner finds `needle` exactly when it is a contiguous
block of `hay`. -/
theorem strContainsAux_eq (needle hay : List Char) :
    strContainsAux needle hay = true ↔ needle <:+: hay := by
  induction hay with
  | nil =>
      simp [strContainsAux, List.isEmpty_iff]
  | cons c rest ih =>
      rw [strContainsAux, Bool.or_eq_true, List.isPrefixOf_iff_prefix, ih,
        List.infix_cons_iff]

/-- The predicate `ContainsStr` agrees with the executable `strContains`. -/
theorem containsStr_iff (hay needle : String) :
    ContainsStr hay needle ↔ strContains hay needle = true := by
  rw [strContains, strContainsAux_eq]
  constructor
  · rintro ⟨p, q, rfl⟩
    exact ⟨p.data, q.data, by rw [String.data_append, String.data_append]⟩
  · rintro ⟨p, q, h⟩
    refine ⟨⟨p⟩, ⟨q⟩, String.ext ?_⟩
    rw [String.data_append, String.data_append]
    exact h.symm

/-- Any string contains its own final segment. -/
theorem containsStr_append_right (a b : String) : ContainsStr (a ++ b) b :=
  ⟨a, "", (String.append_empty (a ++ b)).symm⟩

/-- Any string contains a middle segment. -/
theorem containsStr_append_middle (a b c : String) : ContainsStr (a ++ b ++ c) b :=
  ⟨a, c, rfl⟩

/-! Claim theorems. -/

/-- Claim C1 (code bug).  The claim says a per-record delete with a
non-success HTTP status makes the aggregate `deleteAll` fail with an error
message, as the code comment on the `Promise.all` also asserts; but `fetch`
promises fulfil on any HTTP status, and `deleteAll` never inspects the
delete responses.  At a one-record list whose delete returns HTTP 500 the
operation finishes with no error message and even performs the reload. -/
theorem deleteAll_ignores_failed_delete_status :
    (AdminMovies.deleteAll AdminMovies.initialAdminState true
        (.resolve (okMoviesResponse [movieRec "1"]))
        (fun _ => .resolve resp500del)
        (.resolve (okMoviesResponse [movieRec "1"]))).1.error = ""
  ∧ (AdminMovies.deleteAll AdminMovies.initialAdminState true
        (.resolve (okMoviesResponse [movieRec "1"]))
        (fun _ => .resolve resp500del)
        (.resolve (okMoviesResponse [movieRec "1"]))).2
      = [.getMovies, .deleteMovie (.num "1"), .getMovies] :=
  ⟨rfl, rfl⟩

/-- Claim C3 (confirmed).  When the pre-delete list fetch resolves with a
non-success status, `deleteAll` aborts with the fixed error message and the
only request issued is the list fetch itself — zero deletes. -/
theorem deleteAll_aborts_on_failed_list_fetch (s : AdminMovies.AdminState)
    (res : HttpResponse) (dout : Nat → Outcome) (loadOut : Outcome)
    (h : okStatus res.status = false) :
    (AdminMovies.deleteAll s true (.resolve res) dout loadOut).1.error
        = "Failed to load movies before deleting"
  ∧ (AdminMovies.deleteAll s true (.resolve res) dout loadOut).2 = [.getMovies] := by
  constructor <;> simp [AdminMovies.deleteAll, h]

/-- Witness for claim C3 at a concrete HTTP 500 list response. -/
theorem deleteAll_aborts_on_failed_list_fetch_witness :
    (AdminMovies.deleteAll staleState true (.resolve resp500html)
        (fun _ => .resolve resp204) (.resolve (okMoviesResponse []))).1.error
        = "Failed to load movies before deleting"
  ∧ (AdminMovies.deleteAll staleState true (.resolve resp500html)
        (fun _ => .resolve resp204) (.resolve (okMoviesResponse []))).2 = [.getMovies] :=
  deleteAll_aborts_on_failed_list_fetch staleState resp500html
    (fun _ => .resolve resp204) (.resolve (okMoviesResponse [])) rfl

/-- Claim C4 (confirmed).  Whenever the draft title trims to the empty
string, `addMovie` issues no request at all and ends with the validation
error message; the rest of the state (movies list, form draft) is
unchanged and the loading flag ends cleared. -/
theorem addMovie_blank_title_no_request (s : AdminMovies.AdminState)
    (postOut loadOut : Outcome) (h : jsTrim s.form.title = "") :
    AdminMovies.addMovie s postOut loadOut
      = ({ s with error := "Title is required", loading := false }, []) := by
  simp [AdminMovies.addMovie, h]

/-- Witness for claim C4 at a whitespace-only title. -/
theorem addMovie_blank_title_no_request_witness :
    AdminMovies.addMovie blankTitleState (.resolve resp201)
        (.resolve (okMoviesResponse []))
      = ({ blankTitleState with error := "Title is required", loading := false }, []) :=
  addMovie_blank_title_no_request blankTitleState (.resolve resp201)
    (.resolve (okMoviesResponse [])) rfl

/-- Claim C9 (confirmed).  Declining the confirmation prompt makes both
`deleteOne` and `deleteAll` return immediately: no request is issued and the
whole component state — movies, form, loading flag, error message — is
exactly what it was. -/
theorem declined_confirm_is_noop (s : AdminMovies.AdminState) (id : Json)
    (delOut loadOut listOut loadOut2 : Outcome) (dout : Nat → Outcome) :
    AdminMovies.deleteOne s false id delOut loadOut = (s, [])
  ∧ AdminMovies.deleteAll s false listOut dout loadOut2 = (s, []) :=
  ⟨rfl, rfl⟩

/-- Claim C6 (confirmed).  The serialized payload maps every empty optional
form field to `null`; `salesMillions` maps to `null` when empty and to the
number conversion of the entered text otherwise. -/
theorem toPayload_empty_fields_null (form : AdminMovies.MForm) :
    (form.director = "" →
        (AdminMovies.toPayload form).lookup "director" = some .null)
  ∧ (form.genre = "" →
        (AdminMovies.toPayload form).lookup "genre" = some .null)
  ∧ (form.leadActor1 = "" →
        (AdminMovies.toPayload form).lookup "leadActor1" = some .null)
  ∧ (form.leadActor2 = "" →
        (AdminMovies.toPayload form).lookup "leadActor2" = some .null)
  ∧ (form.releaseDate = "" →
        (AdminMovies.toPayload form).lookup "releaseDate" = some .null)
  ∧ (form.posterUrl = "" →
        (AdminMovies.toPayload form).lookup "posterUrl" = some .null)
  ∧ (form.salesMillions = "" →
        (AdminMovies.toPayload form).lookup "salesMillions" = some .null)
  ∧ (form.salesMillions ≠ "" →
        (AdminMovies.toPayload form).lookup "salesMillions"
          = some (.num form.salesMillions)) := by
  refine ⟨?_, ?_, ?_, ?_, ?_, ?_, ?_, ?_⟩ <;> intro h <;>
    simp [AdminMovies.toPayload, AdminMovies.orNull, AdminMovies.SEND_SNAKE_CASE,
      List.lookup, h]

/-- Witness for claim C6: the Dune draft of the spec scenario serializes
with `salesMillions` equal to `null`. -/
theorem toPayload_dune_salesMillions_null :
    (AdminMovies.toPayload duneDraft).lookup "salesMillions" = some Json.null :=
  (toPayload_empty_fields_null duneDraft).2.2.2.2.2.2.1 rfl

/-- Claim C2, counterexample.  On a three-record list where the second
delete rejects, `deleteAll` shows the rejection as the error but performs no
reload: the only requests are the initial list fetch and the three deletes,
and the displayed movies stay exactly as they were. -/
theorem deleteAll_rejected_delete_skips_reload :
    (AdminMovies.deleteAll staleState true
        (.resolve (okMoviesResponse [movieRec "1", movieRec "2", movieRec "3"]))
        (fun i => if i = 1 then .reject "network down" else .resolve resp204)
        (.resolve (okMoviesResponse []))).1.error = "network down"
  ∧ (AdminMovies.deleteAll staleState true
        (.resolve (okMoviesResponse [movieRec "1", movieRec "2", movieRec "3"]))
        (fun i => if i = 1 then .reject "network down" else .resolve resp204)
        (.resolve (okMoviesResponse []))).1.movies = .arr [movieRec "7"]
  ∧ (AdminMovies.deleteAll staleState true
        (.resolve (okMoviesResponse [movieRec "1", movieRec "2", movieRec "3"]))
        (fun i => if i = 1 then .reject "network down" else .resolve resp204)
        (.resolve (okMoviesResponse []))).2
      = [.getMovies, .deleteMovie (.num "1"), .deleteMovie (.num "2"),
         .deleteMovie (.num "3")] :=
  ⟨rfl, rfl, rfl⟩

/-- Claim C2 as amended.  Once the pre-delete list fetch succeeds, the
reload runs exactly when every per-record delete promise fulfils — with any
HTTP status, failed or not; when some delete rejects, the first rejection
becomes the error, no reload is issued and the displayed list stays
stale. -/
theorem deleteAll_reload_requires_fulfilled_deletes
    (s : AdminMovies.AdminState) (res : HttpResponse) (xs : List Json)
    (dout : Nat → Outcome) (loadOut : Outcome)
    (hok : okStatus res.status = true) (hjson : res.json = .ok (.arr xs)) :
    (firstReject ((List.range xs.length).map dout) = none →
        (AdminMovies.deleteAll s true (.resolve res) dout loadOut).2
          = .getMovies :: xs.map (fun m => Request.deleteMovie (jsGet m "id"))
              ++ [.getMovies])
  ∧ (∀ m, firstReject ((List.range xs.length).map dout) = some m →
        (AdminMovies.deleteAll s true (.resolve res) dout loadOut).1.error = m
      ∧ (AdminMovies.deleteAll s true (.resolve res) dout loadOut).1.movies = s.movies
      ∧ (AdminMovies.deleteAll s true (.resolve res) dout loadOut).2
          = .getMovies :: xs.map (fun m => Request.deleteMovie (jsGet m "id"))) := by
  constructor
  · intro hnone
    simp [AdminMovies.deleteAll, hok, hjson, hnone, load_requests]
  · intro m hsome
    refine ⟨?_, ?_, ?_⟩ <;> simp [AdminMovies.deleteAll, hok, hjson, hsome]

/-- Witness for the amended claim C2: with one record whose delete returns
HTTP 500 (a fulfilled promise), the reload request is still issued. -/
theorem deleteAll_reload_requires_fulfilled_deletes_witness :
    (AdminMovies.deleteAll staleState true
        (.resolve (okMoviesResponse [movieRec "1"]))
        (fun _ => .resolve resp500del)
        (.resolve (okMoviesResponse []))).2
      = .getMovies :: [movieRec "1"].map (fun m => Request.deleteMovie (jsGet m "id"))
          ++ [.getMovies] :=
  (deleteAll_reload_requires_fulfilled_deletes staleState
      (okMoviesResponse [movieRec "1"]) [movieRec "1"]
      (fun _ => .resolve resp500del) (.resolve (okMoviesResponse []))
      rfl rfl).1 rfl

/-- Claim C5, counterexample.  For the movies list operation a non-success
status produces the message built only from the status code: the response
body (here shorter than any truncation bound, so equal to its truncated
copy) does not occur in the stored message. -/
theorem load_status_error_message_omits_body :
    (AdminMovies.load AdminMovies.initialAdminState (.resolve resp500html)).1.error
      = "GET /api/movies failed: 500"
  ∧ ¬ ContainsStr
      (AdminMovies.load AdminMovies.initialAdminState (.resolve resp500html)).1.error
      (resp500html.text.take 200) := by
  refine ⟨rfl, ?_⟩
  rw [containsStr_iff]
  decide

/-- Claim C5 as amended.  The users list load reports failures with the
status code (or detected content type) and the first 200 characters of the
response body; the movies list load reports a non-success status with a
message built from the status code only, without the response body. -/
theorem list_failure_message_content
    (s : AdminMovies.AdminState) (u : UsersChart.UsersState) (res : HttpResponse) :
    (okStatus res.status = false →
        (UsersChart.load u (.resolve res)).1.error
          = "GET /users failed: " ++ toString res.status ++ " — " ++ res.text.take 200
      ∧ (AdminMovies.load s (.resolve res)).1.error
          = "GET /api/movies failed: " ++ toString res.status)
  ∧ (okStatus res.status = true →
      strContains (jsToLower (res.contentTypeHeader.getD "")) "application/json" = false →
        (UsersChart.load u (.resolve res)).1.error
          = "Unexpected response content-type=" ++ jsToLower (res.contentTypeHeader.getD "")
            ++ ". Body: " ++ res.text.take 200) := by
  constructor
  · intro h
    refine ⟨?_, ?_⟩
    · have hne := userFailMsg_ne (toString res.status) (res.text.take 200)
      simp [UsersChart.load, UsersChart.errOr, h, hne]
    · simp [AdminMovies.load, h]
  · intro h hct
    have hne := ctFailMsg_ne (jsToLower (res.contentTypeHeader.getD ""))
      (res.text.take 200)
    simp [UsersChart.load, UsersChart.errOr, h, hct, hne]

/-- Witness for the amended claim C5: the users load at an HTTP 500 HTML
response stores the status and the truncated body. -/
theorem list_failure_message_content_witness :
    (UsersChart.load UsersChart.initialUsersState (.resolve resp500html)).1.error
      = "GET /users failed: " ++ toString resp500html.status ++ " — "
          ++ resp500html.text.take 200 :=
  ((list_failure_message_content AdminMovies.initialAdminState
      UsersChart.initialUsersState resp500html).1 rfl).1

/-- Claim C7 (confirmed).  A non-success status on the movies list fetch
stores an error message containing the status code and replaces the
displayed movies with the empty list. -/
theorem load_bad_status_shows_code_and_clears
    (s : AdminMovies.AdminState) (res : HttpResponse)
    (h : okStatus res.status = false) :
    ContainsStr (AdminMovies.load s (.resolve res)).1.error (toString res.status)
  ∧ (AdminMovies.load s (.resolve res)).1.movies = .arr [] := by
  have he : (AdminMovies.load s (.resolve res)).1.error
      = "GET /api/movies failed: " ++ toString res.status := by
    simp [AdminMovies.load, h]
  have hm : (AdminMovies.load s (.resolve res)).1.movies = .arr [] := by
    simp [AdminMovies.load, h]
  refine ⟨?_, hm⟩
  rw [he]
  exact containsStr_append_right _ _

/-- Witness for claim C7: HTTP 500 with an HTML body against a state that
displayed one movie. -/
theorem load_bad_status_witness :
    ContainsStr (AdminMovies.load staleState (.resolve resp500html)).1.error
        (toString resp500html.status)
  ∧ (AdminMovies.load staleState (.resolve resp500html)).1.movies = .arr [] :=
  load_bad_status_shows_code_and_clears staleState resp500html rfl

/-- Claim C8 (confirmed).  `addMovie` resets the draft to the empty template
exactly on a successful submit; each failure mode — validation, rejected
post, non-success post status — leaves the draft untouched and stores the
corresponding error message. -/
theorem addMovie_reset_iff_success
    (s : AdminMovies.AdminState) (postOut loadOut : Outcome) :
    (jsTrim s.form.title = "" →
        (AdminMovies.addMovie s postOut loadOut).1.form = s.form
      ∧ (AdminMovies.addMovie s postOut loadOut).1.error = "Title is required")
  ∧ (∀ m, jsTrim s.form.title ≠ "" → postOut = .reject m →
        (AdminMovies.addMovie s postOut loadOut).1.form = s.form
      ∧ (AdminMovies.addMovie s postOut loadOut).1.error = m)
  ∧ (∀ res, jsTrim s.form.title ≠ "" → postOut = .resolve res →
      okStatus res.status = false →
        (AdminMovies.addMovie s postOut loadOut).1.form = s.form
      ∧ (AdminMovies.addMovie s postOut loadOut).1.error
          = "POST failed " ++ toString res.status ++ ": " ++ res.text)
  ∧ (∀ res, jsTrim s.form.title ≠ "" → postOut = .resolve res →
      okStatus res.status = true →
        (AdminMovies.addMovie s postOut loadOut).1.form = AdminMovies.emptyForm) := by
  refine ⟨?_, ?_, ?_, ?_⟩
  · intro h
    constructor <;> simp [AdminMovies.addMovie, h]
  · intro m h hp
    subst hp
    constructor <;> simp [AdminMovies.addMovie, h]
  · intro res h hp hok
    subst hp
    constructor <;> simp [AdminMovies.addMovie, h, hok]
  · intro res h hp hok
    subst hp
    simp [AdminMovies.addMovie, h, hok, load_form]

/-- Witness for claim C8: submitting the Dune draft against a 201 response
resets the form to the empty template. -/
theorem addMovie_reset_iff_success_witness :
    (AdminMovies.addMovie duneState (.resolve resp201)
        (.resolve (okMoviesResponse []))).1.form = AdminMovies.emptyForm :=
  (addMovie_reset_iff_success duneState (.resolve resp201)
      (.resolve (okMoviesResponse []))).2.2.2 resp201 (by decide) rfl rfl

/-- Claim C10 (confirmed).  A successful users response with a JSON content
type whose parsed body is not an array completes without error: the users
state becomes the empty list and no error message is stored. -/
theorem usersLoad_nonarray_json_ok
    (u : UsersChart.UsersState) (res : HttpResponse) (data : Json)
    (hok : okStatus res.status = true)
    (hct : strContains (jsToLower (res.contentTypeHeader.getD "")) "application/json" = true)
    (hjson : res.json = .ok data) (harr : data.isArr = false) :
    UsersChart.load u (.resolve res)
      = ({ users := some [], loading := false, error := "" }, [.getUsers]) := by
  cases data <;> simp_all [UsersChart.load, Json.isArr]

/-- Witness for claim C10: HTTP 200, `application/json`, body an object. -/
theorem usersLoad_nonarray_json_ok_witness :
    UsersChart.load UsersChart.initialUsersState (.resolve okUsersNonArray)
      = ({ users := some [], loading := false, error := "" }, [.getUsers]) :=
  usersLoad_nonarray_json_ok UsersChart.initialUsersState okUsersNonArray
    (.obj [("page", .num "1")]) rfl (by decide) rfl rfl
